import Mathlib

/-!
Verification development for the CrossCloudSync repository.

The program under study is `src/app/replicator.py`: a single async function
`replicate_file(s3_bucket, s3_key)` that copies one object from S3 to a fixed
GCS bucket, wrapped in a tenacity retry decorator.  We give a shallow
embedding: the function becomes a pure step function over an explicit world
state (the source object, the destination blob, the destination bucket name),
with a per-attempt fault-injection record standing for the exceptions the two
store clients may raise.  MD5 (from `hashlib`) is an ambient parameter
`md5hex : List Nat → String`, standing for the hex digest of a byte string;
the GCS blob's `base64.b64decode(blob.md5_hash).hex()` is modelled as
`md5hex` applied to the stored destination bytes.
-/

set_option maxRecDepth 4000

namespace CrossCloudSync

/-- Chunk size of the streamed read: `body.read(64 * 1024)` (replicator.py line 49). -/
def CHUNK : Nat := 64 * 1024

/-- The source object as seen through `head_object` / `get_object`:
its raw ETag (as returned, possibly quoted), the byte content the stream
yields, and the optional ContentType of the `get_object` response. -/
structure SourceObj where
  rawEtag : String
  content : List Nat
  contentType : Option String
  deriving Repr, DecidableEq

/-- A destination (GCS) blob: stored bytes and content type.  Its
`md5_hash` metadata is `md5hex` of `content`. -/
structure DestObj where
  content : List Nat
  contentType : String
  deriving Repr, DecidableEq

/-- The world: the source object at the (bucket, key) being replicated (if
any), the destination blob at the same key (if any), and `gcs_bucket.name`. -/
structure World where
  source : Option SourceObj
  dest : Option DestObj
  gcsBucketName : String
  deriving Repr, DecidableEq

/-- The exceptions that can cross the function boundary, tagged by kind.
`clientError` is botocore's `ClientError` (with its error code);
`googleAPIError` is `google.api_core.exceptions.GoogleAPIError`; the three
remaining tags are the distinct `ValueError`s raised by `replicate_file`
itself (lines 31, 58, 66), distinguished in the source by their messages. -/
inductive Exc where
  | clientError (code : String)
  | googleAPIError
  | sourceNotFound
  | uploadError (m : String)
  | checksumMismatch
  | paramValidationError
  | otherExc (m : String)
  deriving Repr, DecidableEq

/-- The message of each exception, `str(e)` in the source: the three
`ValueError`s carry the literal messages of lines 31, 58 and 66;
`paramValidationError` is botocore's client-side rejection of an invalid
request parameter. -/
def Exc.str : Exc → String
  | Exc.clientError code => "ClientError " ++ code
  | Exc.googleAPIError => "GoogleAPIError"
  | Exc.sourceNotFound => "S3 object not found"
  | Exc.uploadError m => "Upload error: " ++ m
  | Exc.checksumMismatch => "Checksum mismatch after upload"
  | Exc.paramValidationError =>
      "Parameter validation failed: Invalid length for parameter Key, value: 0, valid min length: 1"
  | Exc.otherExc m => m

/-- Fault injection for one attempt: which external calls raise.
`headFault` is a `ClientError` code from `head_object` (code "404" is how an
absent object also manifests); `statFault` is a `GoogleAPIError` from
`blob.exists()`/`reload()`; `getFault` a `ClientError` code from
`get_object`; `uploadFault` any exception from `upload_from_file`;
`deleteFault` a `GoogleAPIError` from `blob.delete()`. -/
structure Faults where
  headFault : Option String
  statFault : Bool
  getFault : Option String
  uploadFault : Option Exc
  deleteFault : Bool
  deriving Repr, DecidableEq

/-- An attempt in which no external call raises. -/
def noFaults : Faults := ⟨none, false, none, none, false⟩

/-- Destination-store operations attempted by one call, in order:
`put key bytes` is `upload_from_file` (recorded also when the upload itself
raises), `delete key` is `blob.delete()`. -/
inductive DestOp where
  | put (key : String) (bytes : List Nat)
  | delete (key : String)
  deriving Repr, DecidableEq

/-- The two strings `replicate_file` can return (lines 40 and 69). -/
inductive RetMsg where
  | skipMsg
  | successMsg (key : String) (bucket : String)
  deriving Repr, DecidableEq

/-- The literal returned string of each outcome. -/
def RetMsg.text : RetMsg → String
  | RetMsg.skipMsg => "File already replicated (idempotent skip)"
  | RetMsg.successMsg k b => "Successfully replicated " ++ k ++ " to GCS " ++ b

/-- Result of one attempt of the body: the returned value or raised
exception, the world after the attempt, and the destination operations
attempted. -/
structure StepResult where
  result : Except Exc RetMsg
  world : World
  trace : List DestOp

/-- The double-quote character, for `s3_head['ETag'].strip('"')`. -/
def dquote : Char := Char.ofNat 34

/-- Python's `s.strip('"')`: drop all leading and trailing double quotes. -/
def stripQuotes (s : String) : String :=
  String.mk (((s.data.dropWhile fun c => c = dquote).reverse.dropWhile
    fun c => c = dquote).reverse)

/-- Python's `'-' in s`: the ETag contains a part-count separator
(composite / multipart ETag). -/
def hasDash (s : String) : Bool := s.data.any fun c => c = '-'

/-- The chunking loop `iter(lambda: body.read(64 * 1024), b"")` (line 49),
with a fuel argument to make the recursion structural; each iteration
consumes `CHUNK` bytes of the remaining stream. -/
def chunkLoop : Nat → List Nat → List (List Nat)
  | _, [] => []
  | 0, _ :: _ => []
  | fuel + 1, b :: bs => ((b :: bs).take CHUNK) :: chunkLoop fuel ((b :: bs).drop CHUNK)

/-- The chunks read from a stream carrying `bs`, in read order. -/
def chunkBytes (bs : List Nat) : List (List Nat) := chunkLoop bs.length bs

/-- The bytes accumulated into the md5 hasher by `hasher.update(chunk)`
(line 50), over the chunks in read order. -/
def hasherBytes (content : List Nat) : List Nat :=
  (chunkBytes content).foldl (fun h c => h ++ c) []

/-- The bytes written to the spooled temporary file by `spool.write(chunk)`
(line 51), over the chunks in read order. -/
def spoolBytes (content : List Nat) : List Nat :=
  (chunkBytes content).foldl (fun s c => s ++ c) []

/-- The idempotence check of lines 35–40: the destination blob exists and
either its md5 equals the source ETag or the ETag is composite. -/
def skipCheck (md5hex : List Nat → String) (w : World) (s3Etag : String) : Bool :=
  match w.dest with
  | some d => decide (md5hex d.content = s3Etag) || hasDash s3Etag
  | none => false

/-- Lines 43–66: `get_object`, the chunked hash-and-spool loop, the upload
(any exception wrapped as `ValueError(f"Upload error: {e}")`, line 58), and
the post-upload checksum validation with compensating delete (lines 61–66). -/
def transferPhase (md5hex : List Nat → String) (s3Key : String) (w : World) (f : Faults)
    (src : SourceObj) (s3Etag : String) : StepResult :=
  match f.getFault with
  | some code => ⟨Except.error (Exc.clientError code), w, []⟩
  | none =>
    let contentType := src.contentType.getD "application/octet-stream"
    let digested := hasherBytes src.content
    let spool := spoolBytes src.content
    match f.uploadFault with
    | some e => ⟨Except.error (Exc.uploadError e.str), w, [DestOp.put s3Key spool]⟩
    | none =>
      let w2 : World := { w with dest := some ⟨spool, contentType⟩ }
      let computedMd5 := md5hex digested
      if computedMd5 ≠ s3Etag ∧ hasDash s3Etag = false then
        if f.deleteFault then
          ⟨Except.error Exc.googleAPIError, w2,
            [DestOp.put s3Key spool, DestOp.delete s3Key]⟩
        else
          ⟨Except.error Exc.checksumMismatch, { w2 with dest := none },
            [DestOp.put s3Key spool, DestOp.delete s3Key]⟩
      else
        ⟨Except.ok (RetMsg.successMsg s3Key w.gcsBucketName), w2,
          [DestOp.put s3Key spool]⟩

/-- One attempt of `replicate_file` (lines 19–69): the head/existence check
(a 404 `ClientError` becomes `ValueError("S3 object not found")`, other
`ClientError`s re-raise), the idempotence check, then the transfer phase. -/
def replicateBody (md5hex : List Nat → String) (s3Key : String) (w : World) (f : Faults) :
    StepResult :=
  match f.headFault with
  | some code =>
    if code = "404" then ⟨Except.error Exc.sourceNotFound, w, []⟩
    else ⟨Except.error (Exc.clientError code), w, []⟩
  | none =>
    match w.source with
    | none => ⟨Except.error Exc.sourceNotFound, w, []⟩
    | some src =>
      let s3Etag := stripQuotes src.rawEtag
      if f.statFault then ⟨Except.error Exc.googleAPIError, w, []⟩
      else if skipCheck md5hex w s3Etag then ⟨Except.ok RetMsg.skipMsg, w, []⟩
      else transferPhase md5hex s3Key w f src s3Etag

/-- The tenacity predicate `retry_if_exception_type((ClientError,
GoogleAPIError))` (line 17). -/
def retryable : Exc → Bool
  | Exc.clientError _ => true
  | Exc.googleAPIError => true
  | _ => false

/-- The final outcome of the retry-wrapped call: the returned value, a
non-retryable exception propagated directly, or tenacity's `RetryError`
after `stop_after_attempt(3)`, carrying the last attempt's exception. -/
inductive FinalResult where
  | ok (m : RetMsg)
  | err (e : Exc)
  | retriesExhausted (e : Exc)
  deriving Repr, DecidableEq

/-- Result of the whole retry-wrapped call: outcome, final world, number of
attempts made, and the concatenated destination-operation trace. -/
structure RunResult where
  result : FinalResult
  world : World
  attempts : Nat
  trace : List DestOp
  deriving Repr, DecidableEq

/-- The tenacity retry loop (lines 14–18): run the body; on a retryable
exception re-run it while retries remain, threading the world through and
taking the next attempt's fault record from the list. -/
def runAttempts (md5hex : List Nat → String) (s3Key : String) :
    Nat → List Faults → World → RunResult
  | 0, fs, w =>
    let step := replicateBody md5hex s3Key w (fs.headD noFaults)
    match step.result with
    | Except.ok m => ⟨FinalResult.ok m, step.world, 1, step.trace⟩
    | Except.error e =>
      if retryable e then ⟨FinalResult.retriesExhausted e, step.world, 1, step.trace⟩
      else ⟨FinalResult.err e, step.world, 1, step.trace⟩
  | n + 1, fs, w =>
    let step := replicateBody md5hex s3Key w (fs.headD noFaults)
    match step.result with
    | Except.ok m => ⟨FinalResult.ok m, step.world, 1, step.trace⟩
    | Except.error e =>
      if retryable e then
        let rest := runAttempts md5hex s3Key n fs.tail step.world
        ⟨rest.result, rest.world, rest.attempts + 1, step.trace ++ rest.trace⟩
      else ⟨FinalResult.err e, step.world, 1, step.trace⟩

/-- `stop_after_attempt(3)` (line 15). -/
def STOP_AFTER : Nat := 3

/-- The decorated `replicate_file`: up to `STOP_AFTER` attempts, with the
per-attempt fault records drawn from `fs` (exhausted entries meaning a
fault-free attempt). -/
def replicate (md5hex : List Nat → String) (s3Key : String) (fs : List Faults)
    (w : World) : RunResult :=
  runAttempts md5hex s3Key (STOP_AFTER - 1) fs w

/-- Botocore client-side parameter validation performed by the boto3 client
that `config.py` constructs, entered at the `head_object` call of line 25:
the S3 service model gives `ObjectKey` a minimum length of 1, so an empty
`Key` raises `ParamValidationError` locally, before any request is sent
(hence before any injectable network fault).  `ParamValidationError` is not
a `ClientError`, so the `except ClientError` of line 29 does not catch it,
and it is not in the tenacity predicate of line 17, so it is never
retried. -/
def validateKey (s3Key : String) : Option Exc :=
  if s3Key.length = 0 then some Exc.paramValidationError else none

/-- One attempt of `replicate_file` including the botocore client-side
parameter validation: an invalid key fails at line 25 before any store
interaction; a valid key proceeds exactly as `replicateBody`. -/
def replicateBodyChecked (md5hex : List Nat → String) (s3Key : String) (w : World)
    (f : Faults) : StepResult :=
  match validateKey s3Key with
  | some e => ⟨Except.error e, w, []⟩
  | none => replicateBody md5hex s3Key w f

/-- The tenacity retry loop of lines 14–18 over the validation-aware body. -/
def runAttemptsChecked (md5hex : List Nat → String) (s3Key : String) :
    Nat → List Faults → World → RunResult
  | 0, fs, w =>
    let step := replicateBodyChecked md5hex s3Key w (fs.headD noFaults)
    match step.result with
    | Except.ok m => ⟨FinalResult.ok m, step.world, 1, step.trace⟩
    | Except.error e =>
      if retryable e then ⟨FinalResult.retriesExhausted e, step.world, 1, step.trace⟩
      else ⟨FinalResult.err e, step.world, 1, step.trace⟩
  | n + 1, fs, w =>
    let step := replicateBodyChecked md5hex s3Key w (fs.headD noFaults)
    match step.result with
    | Except.ok m => ⟨FinalResult.ok m, step.world, 1, step.trace⟩
    | Except.error e =>
      if retryable e then
        let rest := runAttemptsChecked md5hex s3Key n fs.tail step.world
        ⟨rest.result, rest.world, rest.attempts + 1, step.trace ++ rest.trace⟩
      else ⟨FinalResult.err e, step.world, 1, step.trace⟩

/-- The decorated `replicate_file` including botocore's client-side
parameter validation. -/
def replicateChecked (md5hex : List Nat → String) (s3Key : String) (fs : List Faults)
    (w : World) : RunResult :=
  runAttemptsChecked md5hex s3Key (STOP_AFTER - 1) fs w

/-! Concrete instances used to evaluate the model on explicit inputs. -/

/-- A concrete stand-in for the ambient hex-digest function: the digest of a
byte string is one letter per byte, so distinct lengths give distinct
digests and no digest contains a dash. -/
def md5len (bs : List Nat) : String := String.mk (bs.map fun _ => 'a')

/-- Source object of one byte whose declared ETag matches `md5len`. -/
def wMatch : World := { source := some ⟨"a", [7], none⟩, dest := none, gcsBucketName := "b" }

/-- Source object of two bytes whose declared ETag matches `md5len`. -/
def wTwo : World := { source := some ⟨"aa", [7, 7], none⟩, dest := none, gcsBucketName := "b" }

/-- No source object. -/
def wAbsent : World := { source := none, dest := none, gcsBucketName := "b" }

/-- Source object whose declared non-composite ETag does not match the
digest of its content. -/
def wBad : World := { source := some ⟨"zz", [7], none⟩, dest := none, gcsBucketName := "b" }

/-- Source object with a composite (dash-containing) ETag that does not
match the digest of its content. -/
def wComp : World := { source := some ⟨"a-2", [7], none⟩, dest := none, gcsBucketName := "b" }

/-- An attempt during which `upload_from_file` raises a transient
`GoogleAPIError`. -/
def fUp : Faults := ⟨none, false, none, some Exc.googleAPIError, false⟩

/-- An attempt during which `head_object` raises a transient `ClientError`
with a 5xx code. -/
def fHead500 : Faults := ⟨some "500", false, none, none, false⟩

/-! Basic facts about the chunked hash-and-spool loop. -/

theorem chunkLoop_join : ∀ (fuel : Nat) (bs : List Nat), bs.length ≤ fuel →
    (chunkLoop fuel bs).flatten = bs := by
  intro fuel
  induction fuel with
  | zero =>
    intro bs h
    cases bs with
    | nil => simp [chunkLoop]
    | cons b l => simp at h
  | succ n ih =>
    intro bs h
    cases bs with
    | nil => simp [chunkLoop]
    | cons b l =>
      rw [chunkLoop]
      rw [List.flatten_cons]
      rw [ih]
      · exact List.take_append_drop CHUNK (b :: l)
      · simp only [List.length_drop, List.length_cons, CHUNK]
        simp only [List.length_cons] at h
        omega

theorem chunkBytes_join (bs : List Nat) : (chunkBytes bs).flatten = bs :=
  chunkLoop_join bs.length bs (le_refl _)

theorem foldl_append_eq (l : List (List Nat)) :
    ∀ a : List Nat, l.foldl (fun x c => x ++ c) a = a ++ l.flatten := by
  induction l with
  | nil => intro a; simp
  | cons c t ih => intro a; simp [List.foldl, ih, List.append_assoc]

theorem hasherBytes_eq (c : List Nat) : hasherBytes c = c := by
  unfold hasherBytes
  rw [foldl_append_eq, chunkBytes_join, List.nil_append]

theorem spoolBytes_eq (c : List Nat) : spoolBytes c = c := by
  unfold spoolBytes
  rw [foldl_append_eq, chunkBytes_join, List.nil_append]

/-! Branch lemmas for one attempt of the body. -/

theorem body_headFault (md5hex : List Nat → String) (s3Key : String) (w : World) (f : Faults)
    (code : String) (h : f.headFault = some code) :
    replicateBody md5hex s3Key w f =
      if code = "404" then ⟨Except.error Exc.sourceNotFound, w, []⟩
      else ⟨Except.error (Exc.clientError code), w, []⟩ := by
  unfold replicateBody
  rw [h]

theorem body_source_none (md5hex : List Nat → String) (s3Key : String) (w : World) (f : Faults)
    (hh : f.headFault = none) (hs : w.source = none) :
    replicateBody md5hex s3Key w f = ⟨Except.error Exc.sourceNotFound, w, []⟩ := by
  unfold replicateBody
  rw [hh, hs]

theorem body_skip (md5hex : List Nat → String) (s3Key : String) (w : World) (f : Faults)
    (src : SourceObj) (hh : f.headFault = none) (hst : f.statFault = false)
    (hs : w.source = some src)
    (hsk : skipCheck md5hex w (stripQuotes src.rawEtag) = true) :
    replicateBody md5hex s3Key w f = ⟨Except.ok RetMsg.skipMsg, w, []⟩ := by
  unfold replicateBody
  rw [hh, hs]
  simp [hst, hsk]

theorem body_transfer (md5hex : List Nat → String) (s3Key : String) (w : World) (f : Faults)
    (src : SourceObj) (hh : f.headFault = none) (hst : f.statFault = false)
    (hs : w.source = some src)
    (hsk : skipCheck md5hex w (stripQuotes src.rawEtag) = false) :
    replicateBody md5hex s3Key w f =
      transferPhase md5hex s3Key w f src (stripQuotes src.rawEtag) := by
  unfold replicateBody
  rw [hh, hs]
  simp [hst, hsk]

theorem transfer_upload_fault (md5hex : List Nat → String) (s3Key : String) (w : World)
    (f : Faults) (src : SourceObj) (etag : String) (e : Exc)
    (hg : f.getFault = none) (hu : f.uploadFault = some e) :
    transferPhase md5hex s3Key w f src etag =
      ⟨Except.error (Exc.uploadError e.str), w,
        [DestOp.put s3Key (spoolBytes src.content)]⟩ := by
  simp [transferPhase, hg, hu]

theorem transfer_mismatch (md5hex : List Nat → String) (s3Key : String) (w : World)
    (f : Faults) (src : SourceObj) (etag : String)
    (hg : f.getFault = none) (hu : f.uploadFault = none) (hd : f.deleteFault = false)
    (hmm : md5hex (hasherBytes src.content) ≠ etag) (hcomp : hasDash etag = false) :
    transferPhase md5hex s3Key w f src etag =
      ⟨Except.error Exc.checksumMismatch, { w with dest := none },
        [DestOp.put s3Key (spoolBytes src.content), DestOp.delete s3Key]⟩ := by
  simp [transferPhase, hg, hu, hd, hmm, hcomp]

theorem transfer_success (md5hex : List Nat → String) (s3Key : String) (w : World)
    (f : Faults) (src : SourceObj) (etag : String)
    (hg : f.getFault = none) (hu : f.uploadFault = none)
    (hok : md5hex (hasherBytes src.content) = etag ∨ hasDash etag = true) :
    transferPhase md5hex s3Key w f src etag =
      ⟨Except.ok (RetMsg.successMsg s3Key w.gcsBucketName),
        { w with dest := some ⟨spoolBytes src.content,
            src.contentType.getD "application/octet-stream"⟩ },
        [DestOp.put s3Key (spoolBytes src.content)]⟩ := by
  have hcond : ¬ (md5hex (hasherBytes src.content) ≠ etag ∧ hasDash etag = false) := by
    rcases hok with h | h
    · intro hc
      exact hc.1 h
    · intro hc
      rw [h] at hc
      exact Bool.noConfusion hc.2
  simp [transferPhase, hg, hu, hcond]

theorem body_stat_fault (md5hex : List Nat → String) (s3Key : String) (w : World) (f : Faults)
    (src : SourceObj) (hh : f.headFault = none) (hs : w.source = some src)
    (hst : f.statFault = true) :
    replicateBody md5hex s3Key w f = ⟨Except.error Exc.googleAPIError, w, []⟩ := by
  unfold replicateBody
  rw [hh, hs]
  simp [hst]

theorem transfer_get_fault (md5hex : List Nat → String) (s3Key : String) (w : World)
    (f : Faults) (src : SourceObj) (etag : String) (code : String)
    (hg : f.getFault = some code) :
    transferPhase md5hex s3Key w f src etag =
      ⟨Except.error (Exc.clientError code), w, []⟩ := by
  simp [transferPhase, hg]

theorem transfer_mismatch_dfault (md5hex : List Nat → String) (s3Key : String) (w : World)
    (f : Faults) (src : SourceObj) (etag : String)
    (hg : f.getFault = none) (hu : f.uploadFault = none) (hd : f.deleteFault = true)
    (hmm : md5hex (hasherBytes src.content) ≠ etag) (hcomp : hasDash etag = false) :
    transferPhase md5hex s3Key w f src etag =
      ⟨Except.error Exc.googleAPIError,
        { w with dest := some ⟨spoolBytes src.content,
            src.contentType.getD "application/octet-stream"⟩ },
        [DestOp.put s3Key (spoolBytes src.content), DestOp.delete s3Key]⟩ := by
  simp [transferPhase, hg, hu, hd, hmm, hcomp]

theorem body_world_frame (md5hex : List Nat → String) (s3Key : String) (w : World) (f : Faults) :
    (replicateBody md5hex s3Key w f).world.source = w.source ∧
    (replicateBody md5hex s3Key w f).world.gcsBucketName = w.gcsBucketName := by
  rcases hf : f.headFault with _ | code
  · rcases hs : w.source with _ | src
    · simp [body_source_none md5hex s3Key w f hf hs, hs]
    · cases hst : f.statFault with
      | true => simp [body_stat_fault md5hex s3Key w f src hf hs hst, hs]
      | false =>
        cases hsk : skipCheck md5hex w (stripQuotes src.rawEtag) with
        | true => simp [body_skip md5hex s3Key w f src hf hst hs hsk, hs]
        | false =>
          rw [body_transfer md5hex s3Key w f src hf hst hs hsk]
          rcases hg : f.getFault with _ | code
          · rcases hu : f.uploadFault with _ | e
            · by_cases hcomp : hasDash (stripQuotes src.rawEtag) = false
              · by_cases hmm : md5hex (hasherBytes src.content) = stripQuotes src.rawEtag
                · simp [transfer_success md5hex s3Key w f src _ hg hu (Or.inl hmm), hs]
                · cases hd : f.deleteFault with
                  | false => simp [transfer_mismatch md5hex s3Key w f src _ hg hu hd hmm hcomp, hs]
                  | true =>
                    simp [transfer_mismatch_dfault md5hex s3Key w f src _ hg hu hd hmm hcomp, hs]
              · have hcomp2 : hasDash (stripQuotes src.rawEtag) = true := by
                  cases hx : hasDash (stripQuotes src.rawEtag)
                  · exact absurd hx hcomp
                  · rfl
                simp [transfer_success md5hex s3Key w f src _ hg hu (Or.inr hcomp2), hs]
            · simp [transfer_upload_fault md5hex s3Key w f src _ e hg hu, hs]
          · simp [transfer_get_fault md5hex s3Key w f src _ code hg, hs]
  · rw [body_headFault md5hex s3Key w f code hf]
    split <;> simp

/-! One-step lemmas for the retry loop. -/

theorem run_step_ok (md5hex : List Nat → String) (s3Key : String) (n : Nat)
    (fs : List Faults) (w : World) (m : RetMsg)
    (h : (replicateBody md5hex s3Key w (fs.headD noFaults)).result = Except.ok m) :
    runAttempts md5hex s3Key n fs w =
      ⟨FinalResult.ok m, (replicateBody md5hex s3Key w (fs.headD noFaults)).world, 1,
        (replicateBody md5hex s3Key w (fs.headD noFaults)).trace⟩ := by
  cases n <;> (simp only [runAttempts]; rw [h])

theorem run_step_err (md5hex : List Nat → String) (s3Key : String) (n : Nat)
    (fs : List Faults) (w : World) (e : Exc)
    (h : (replicateBody md5hex s3Key w (fs.headD noFaults)).result = Except.error e)
    (hr : retryable e = false) :
    runAttempts md5hex s3Key n fs w =
      ⟨FinalResult.err e, (replicateBody md5hex s3Key w (fs.headD noFaults)).world, 1,
        (replicateBody md5hex s3Key w (fs.headD noFaults)).trace⟩ := by
  cases n <;> (simp only [runAttempts]; rw [h]; simp [hr])

theorem run_step_exhausted (md5hex : List Nat → String) (s3Key : String)
    (fs : List Faults) (w : World) (e : Exc)
    (h : (replicateBody md5hex s3Key w (fs.headD noFaults)).result = Except.error e)
    (hr : retryable e = true) :
    runAttempts md5hex s3Key 0 fs w =
      ⟨FinalResult.retriesExhausted e, (replicateBody md5hex s3Key w (fs.headD noFaults)).world,
        1, (replicateBody md5hex s3Key w (fs.headD noFaults)).trace⟩ := by
  simp only [runAttempts]
  rw [h]
  simp [hr]

theorem run_step_retry (md5hex : List Nat → String) (s3Key : String) (n : Nat)
    (fs : List Faults) (w : World) (e : Exc)
    (h : (replicateBody md5hex s3Key w (fs.headD noFaults)).result = Except.error e)
    (hr : retryable e = true) :
    runAttempts md5hex s3Key (n + 1) fs w =
      ⟨(runAttempts md5hex s3Key n fs.tail
          (replicateBody md5hex s3Key w (fs.headD noFaults)).world).result,
        (runAttempts md5hex s3Key n fs.tail
          (replicateBody md5hex s3Key w (fs.headD noFaults)).world).world,
        (runAttempts md5hex s3Key n fs.tail
          (replicateBody md5hex s3Key w (fs.headD noFaults)).world).attempts + 1,
        (replicateBody md5hex s3Key w (fs.headD noFaults)).trace ++
          (runAttempts md5hex s3Key n fs.tail
            (replicateBody md5hex s3Key w (fs.headD noFaults)).world).trace⟩ := by
  simp only [runAttempts]
  rw [h]
  simp [hr]

theorem replicate_nil_ok (md5hex : List Nat → String) (s3Key : String) (w : World) (m : RetMsg)
    (h : (replicateBody md5hex s3Key w noFaults).result = Except.ok m) :
    replicate md5hex s3Key [] w =
      ⟨FinalResult.ok m, (replicateBody md5hex s3Key w noFaults).world, 1,
        (replicateBody md5hex s3Key w noFaults).trace⟩ :=
  run_step_ok md5hex s3Key (STOP_AFTER - 1) [] w m h

theorem replicate_nil_err (md5hex : List Nat → String) (s3Key : String) (w : World) (e : Exc)
    (h : (replicateBody md5hex s3Key w noFaults).result = Except.error e)
    (hr : retryable e = false) :
    replicate md5hex s3Key [] w =
      ⟨FinalResult.err e, (replicateBody md5hex s3Key w noFaults).world, 1,
        (replicateBody md5hex s3Key w noFaults).trace⟩ :=
  run_step_err md5hex s3Key (STOP_AFTER - 1) [] w e h hr

/-- C6: when the source object is absent (and the metadata lookup itself
raises no transient fault), the call fails with the `SourceNotFound`
`ValueError` after exactly 1 attempt: the 404 is converted to a `ValueError`
(line 31), which the tenacity predicate of line 17 never retries. -/
theorem c6_source_not_found_single_attempt (md5hex : List Nat → String) (s3Key : String)
    (fs : List Faults) (w : World)
    (habs : w.source = none) (hf : (fs.headD noFaults).headFault = none) :
    replicate md5hex s3Key fs w = ⟨FinalResult.err Exc.sourceNotFound, w, 1, []⟩ := by
  have hb := body_source_none md5hex s3Key w (fs.headD noFaults) hf habs
  have hstep := run_step_err md5hex s3Key (STOP_AFTER - 1) fs w Exc.sourceNotFound
    (by rw [hb]) rfl
  unfold replicate
  rw [hstep, hb]

theorem c6_source_not_found_single_attempt_witness :
    wAbsent.source = none ∧ (([] : List Faults).headD noFaults).headFault = none ∧
    replicate md5len "k" [] wAbsent = ⟨FinalResult.err Exc.sourceNotFound, wAbsent, 1, []⟩ :=
  ⟨rfl, rfl, c6_source_not_found_single_attempt md5len "k" [] wAbsent rfl rfl⟩

/-- C3: in a fault-free run with a non-composite source ETag that does not
match the digest of the transferred bytes, and no idempotent skip, the call
uploads, then deletes the just-uploaded destination object, and fails with
the checksum-mismatch `ValueError` after exactly 1 attempt; afterwards no
destination object exists. -/
theorem c3_mismatch_compensating_delete (md5hex : List Nat → String) (s3Key : String)
    (w : World) (src : SourceObj)
    (hsrc : w.source = some src)
    (hcomp : hasDash (stripQuotes src.rawEtag) = false)
    (hmm : md5hex src.content ≠ stripQuotes src.rawEtag)
    (hskip : skipCheck md5hex w (stripQuotes src.rawEtag) = false) :
    replicate md5hex s3Key [] w =
      ⟨FinalResult.err Exc.checksumMismatch, { w with dest := none }, 1,
        [DestOp.put s3Key (spoolBytes src.content), DestOp.delete s3Key]⟩ := by
  have hmm2 : md5hex (hasherBytes src.content) ≠ stripQuotes src.rawEtag := by
    rw [hasherBytes_eq]
    exact hmm
  have hb : replicateBody md5hex s3Key w noFaults =
      ⟨Except.error Exc.checksumMismatch, { w with dest := none },
        [DestOp.put s3Key (spoolBytes src.content), DestOp.delete s3Key]⟩ := by
    rw [body_transfer md5hex s3Key w noFaults src rfl rfl hsrc hskip]
    exact transfer_mismatch md5hex s3Key w noFaults src _ rfl rfl rfl hmm2 hcomp
  rw [replicate_nil_err md5hex s3Key w Exc.checksumMismatch (by rw [hb]) rfl, hb]

theorem c3_mismatch_compensating_delete_witness :
    wBad.source = some ⟨"zz", [7], none⟩ ∧
    hasDash (stripQuotes (SourceObj.mk "zz" [7] none).rawEtag) = false ∧
    md5len [7] ≠ stripQuotes (SourceObj.mk "zz" [7] none).rawEtag ∧
    skipCheck md5len wBad (stripQuotes (SourceObj.mk "zz" [7] none).rawEtag) = false ∧
    replicate md5len "k" [] wBad =
      ⟨FinalResult.err Exc.checksumMismatch, { wBad with dest := none }, 1,
        [DestOp.put "k" (spoolBytes [7]), DestOp.delete "k"]⟩ :=
  ⟨rfl, by decide, by decide, by decide,
    c3_mismatch_compensating_delete md5len "k" wBad ⟨"zz", [7], none⟩ rfl
      (by decide) (by decide) (by decide)⟩

/-- C9: with a composite source ETag but no object at the destination key,
the idempotent-skip branch (which requires `gcs_blob.exists()`) is not
taken: a fault-free run performs the full transfer, uploads, skips
verification, and succeeds after one attempt. -/
theorem c9_composite_absent_dest_full_transfer (md5hex : List Nat → String) (s3Key : String)
    (w : World) (src : SourceObj)
    (hsrc : w.source = some src)
    (hcomp : hasDash (stripQuotes src.rawEtag) = true)
    (hdest : w.dest = none) :
    replicate md5hex s3Key [] w =
      ⟨FinalResult.ok (RetMsg.successMsg s3Key w.gcsBucketName),
        { w with dest := some ⟨spoolBytes src.content,
            src.contentType.getD "application/octet-stream"⟩ },
        1, [DestOp.put s3Key (spoolBytes src.content)]⟩ ∧
    spoolBytes src.content = src.content := by
  have hskip : skipCheck md5hex w (stripQuotes src.rawEtag) = false := by
    unfold skipCheck
    rw [hdest]
  have hb : replicateBody md5hex s3Key w noFaults =
      ⟨Except.ok (RetMsg.successMsg s3Key w.gcsBucketName),
        { w with dest := some ⟨spoolBytes src.content,
            src.contentType.getD "application/octet-stream"⟩ },
        [DestOp.put s3Key (spoolBytes src.content)]⟩ := by
    rw [body_transfer md5hex s3Key w noFaults src rfl rfl hsrc hskip]
    exact transfer_success md5hex s3Key w noFaults src _ rfl rfl (Or.inr hcomp)
  constructor
  · rw [replicate_nil_ok md5hex s3Key w (RetMsg.successMsg s3Key w.gcsBucketName)
      (by rw [hb]), hb]
  · exact spoolBytes_eq src.content

theorem c9_composite_absent_dest_full_transfer_witness :
    wComp.source = some ⟨"a-2", [7], none⟩ ∧
    hasDash (stripQuotes (SourceObj.mk "a-2" [7] none).rawEtag) = true ∧
    wComp.dest = none ∧
    (replicate md5len "k" [] wComp =
      ⟨FinalResult.ok (RetMsg.successMsg "k" wComp.gcsBucketName),
        { wComp with dest := some ⟨spoolBytes [7],
            (Option.getD (none : Option String) "application/octet-stream")⟩ },
        1, [DestOp.put "k" (spoolBytes [7])]⟩ ∧
      spoolBytes [7] = [7]) :=
  ⟨rfl, by decide, rfl,
    c9_composite_absent_dest_full_transfer md5len "k" wComp ⟨"a-2", [7], none⟩ rfl
      (by decide) rfl⟩

/-- C10: when `upload_from_file` raises, the wrapped `ValueError("Upload
error: ...")` is surfaced (and, being a `ValueError`, never retried), the
destination state is untouched, and `blob.delete()` is never called: the
compensating delete belongs only to the post-upload mismatch path. -/
theorem c10_upload_failure_no_delete (md5hex : List Nat → String) (s3Key : String)
    (fs : List Faults) (w : World) (src : SourceObj) (e : Exc)
    (hsrc : w.source = some src)
    (hskip : skipCheck md5hex w (stripQuotes src.rawEtag) = false)
    (hh : (fs.headD noFaults).headFault = none)
    (hst : (fs.headD noFaults).statFault = false)
    (hg : (fs.headD noFaults).getFault = none)
    (hu : (fs.headD noFaults).uploadFault = some e) :
    replicate md5hex s3Key fs w =
      ⟨FinalResult.err (Exc.uploadError e.str), w, 1,
        [DestOp.put s3Key (spoolBytes src.content)]⟩ ∧
    ∀ k, DestOp.delete k ∉ (replicate md5hex s3Key fs w).trace := by
  have hb : replicateBody md5hex s3Key w (fs.headD noFaults) =
      ⟨Except.error (Exc.uploadError e.str), w,
        [DestOp.put s3Key (spoolBytes src.content)]⟩ := by
    rw [body_transfer md5hex s3Key w _ src hh hst hsrc hskip]
    exact transfer_upload_fault md5hex s3Key w _ src _ e hg hu
  have hrun := run_step_err md5hex s3Key (STOP_AFTER - 1) fs w (Exc.uploadError e.str)
    (by rw [hb]) rfl
  constructor
  · unfold replicate
    rw [hrun, hb]
  · intro k
    unfold replicate
    rw [hrun, hb]
    simp

theorem c10_upload_failure_no_delete_witness :
    wMatch.source = some ⟨"a", [7], none⟩ ∧
    skipCheck md5len wMatch (stripQuotes (SourceObj.mk "a" [7] none).rawEtag) = false ∧
    ([fUp].headD noFaults).headFault = none ∧
    ([fUp].headD noFaults).statFault = false ∧
    ([fUp].headD noFaults).getFault = none ∧
    ([fUp].headD noFaults).uploadFault = some Exc.googleAPIError ∧
    (replicate md5len "k" [fUp] wMatch =
      ⟨FinalResult.err (Exc.uploadError Exc.googleAPIError.str), wMatch, 1,
        [DestOp.put "k" (spoolBytes [7])]⟩ ∧
     ∀ k, DestOp.delete k ∉ (replicate md5len "k" [fUp] wMatch).trace) :=
  ⟨rfl, by decide, rfl, rfl, rfl, rfl,
    c10_upload_failure_no_delete md5len "k" [fUp] wMatch ⟨"a", [7], none⟩
      Exc.googleAPIError rfl (by decide) rfl rfl rfl rfl⟩

theorem bodyChecked_eq_body (md5hex : List Nat → String) (s3Key : String)
    (h : validateKey s3Key = none) (w : World) (f : Faults) :
    replicateBodyChecked md5hex s3Key w f = replicateBody md5hex s3Key w f := by
  unfold replicateBodyChecked
  rw [h]

theorem runChecked_eq_run (md5hex : List Nat → String) (s3Key : String)
    (h : validateKey s3Key = none) :
    ∀ (n : Nat) (fs : List Faults) (w : World),
    runAttemptsChecked md5hex s3Key n fs w = runAttempts md5hex s3Key n fs w := by
  intro n
  induction n with
  | zero =>
    intro fs w
    simp only [runAttemptsChecked, runAttempts, bodyChecked_eq_body md5hex s3Key h]
  | succ n ih =>
    intro fs w
    simp only [runAttemptsChecked, runAttempts, bodyChecked_eq_body md5hex s3Key h, ih]

theorem replicateChecked_eq_replicate (md5hex : List Nat → String) (s3Key : String)
    (fs : List Faults) (w : World) (h : validateKey s3Key = none) :
    replicateChecked md5hex s3Key fs w = replicate md5hex s3Key fs w := by
  unfold replicateChecked replicate
  exact runChecked_eq_run md5hex s3Key h (STOP_AFTER - 1) fs w

theorem runChecked_step_err (md5hex : List Nat → String) (s3Key : String) (n : Nat)
    (fs : List Faults) (w : World) (e : Exc)
    (h : (replicateBodyChecked md5hex s3Key w (fs.headD noFaults)).result = Except.error e)
    (hr : retryable e = false) :
    runAttemptsChecked md5hex s3Key n fs w =
      ⟨FinalResult.err e, (replicateBodyChecked md5hex s3Key w (fs.headD noFaults)).world, 1,
        (replicateBodyChecked md5hex s3Key w (fs.headD noFaults)).trace⟩ := by
  cases n <;> (simp only [runAttemptsChecked]; rw [h]; simp [hr])

/-- C8: an invocation with an empty key fails, terminally and without any
retry, at the invalid-input check: botocore's client-side parameter
validation rejects the empty `Key` at the `head_object` call of line 25
(S3 `ObjectKey` has minimum length 1) before any store interaction,
raising `ParamValidationError` — which is not a `ClientError`, so it is
neither caught by the handler of line 29 nor retried by the policy of
line 17: exactly 1 attempt, no destination operation, state unchanged,
for every hash function, fault schedule and world. -/
theorem c8_empty_key_terminal_validation_error (md5hex : List Nat → String)
    (fs : List Faults) (w : World) :
    replicateChecked md5hex "" fs w =
      ⟨FinalResult.err Exc.paramValidationError, w, 1, []⟩ := by
  have hb : replicateBodyChecked md5hex "" w (fs.headD noFaults) =
      ⟨Except.error Exc.paramValidationError, w, []⟩ := by
    unfold replicateBodyChecked validateKey
    rfl
  unfold replicateChecked
  rw [runChecked_step_err md5hex "" (STOP_AFTER - 1) fs w Exc.paramValidationError
    (by rw [hb]) rfl, hb]

theorem body_no_mismatch_of_composite (md5hex : List Nat → String) (s3Key : String)
    (w : World) (f : Faults) (src : SourceObj)
    (hsrc : w.source = some src) (hcomp : hasDash (stripQuotes src.rawEtag) = true) :
    (replicateBody md5hex s3Key w f).result ≠ Except.error Exc.checksumMismatch := by
  rcases hf : f.headFault with _ | code
  · cases hst : f.statFault with
    | true => simp [body_stat_fault md5hex s3Key w f src hf hsrc hst]
    | false =>
      cases hsk : skipCheck md5hex w (stripQuotes src.rawEtag) with
      | true => simp [body_skip md5hex s3Key w f src hf hst hsrc hsk]
      | false =>
        rw [body_transfer md5hex s3Key w f src hf hst hsrc hsk]
        rcases hg : f.getFault with _ | code
        · rcases hu : f.uploadFault with _ | e
          · simp [transfer_success md5hex s3Key w f src _ hg hu (Or.inr hcomp)]
          · simp [transfer_upload_fault md5hex s3Key w f src _ e hg hu]
        · simp [transfer_get_fault md5hex s3Key w f src _ code hg]
  · rw [body_headFault md5hex s3Key w f code hf]
    split <;> simp

theorem run_no_mismatch_of_composite (md5hex : List Nat → String) (s3Key : String)
    (src : SourceObj) :
    ∀ (n : Nat) (fs : List Faults) (w : World), w.source = some src →
    hasDash (stripQuotes src.rawEtag) = true →
    (runAttempts md5hex s3Key n fs w).result ≠ FinalResult.err Exc.checksumMismatch ∧
    (runAttempts md5hex s3Key n fs w).result ≠
      FinalResult.retriesExhausted Exc.checksumMismatch := by
  intro n
  induction n with
  | zero =>
    intro fs w hsrc hcomp
    rcases hres : (replicateBody md5hex s3Key w (fs.headD noFaults)).result with e | m
    · have hne : e ≠ Exc.checksumMismatch := by
        intro he
        exact body_no_mismatch_of_composite md5hex s3Key w (fs.headD noFaults) src hsrc hcomp
          (by rw [hres, he])
      cases hr : retryable e with
      | true =>
        rw [run_step_exhausted md5hex s3Key fs w e hres hr]
        simp [hne]
      | false =>
        rw [run_step_err md5hex s3Key 0 fs w e hres hr]
        simp [hne]
    · rw [run_step_ok md5hex s3Key 0 fs w m hres]
      simp
  | succ n ih =>
    intro fs w hsrc hcomp
    rcases hres : (replicateBody md5hex s3Key w (fs.headD noFaults)).result with e | m
    · have hne : e ≠ Exc.checksumMismatch := by
        intro he
        exact body_no_mismatch_of_composite md5hex s3Key w (fs.headD noFaults) src hsrc hcomp
          (by rw [hres, he])
      cases hr : retryable e with
      | true =>
        rw [run_step_retry md5hex s3Key n fs w e hres hr]
        have hsrc2 : (replicateBody md5hex s3Key w (fs.headD noFaults)).world.source = some src := by
          rw [(body_world_frame md5hex s3Key w (fs.headD noFaults)).1, hsrc]
        exact ih fs.tail _ hsrc2 hcomp
      | false =>
        rw [run_step_err md5hex s3Key (n + 1) fs w e hres hr]
        simp [hne]
    · rw [run_step_ok md5hex s3Key (n + 1) fs w m hres]
      simp

/-- C4: when the source ETag is composite (contains a dash), no run of
`replicate_file` — whatever faults its attempts encounter — ever fails with
the checksum-mismatch `ValueError`: the verification of lines 62–66 is
guarded by `'-' not in s3_etag`, so it is skipped entirely even when the
transferred bytes do not hash to the declared digest. -/
theorem c4_composite_never_integrity_mismatch (md5hex : List Nat → String) (s3Key : String)
    (fs : List Faults) (w : World) (src : SourceObj)
    (hsrc : w.source = some src) (hcomp : hasDash (stripQuotes src.rawEtag) = true) :
    (replicate md5hex s3Key fs w).result ≠ FinalResult.err Exc.checksumMismatch ∧
    (replicate md5hex s3Key fs w).result ≠
      FinalResult.retriesExhausted Exc.checksumMismatch := by
  unfold replicate
  exact run_no_mismatch_of_composite md5hex s3Key src (STOP_AFTER - 1) fs w hsrc hcomp

theorem c4_composite_never_integrity_mismatch_witness :
    wComp.source = some ⟨"a-2", [7], none⟩ ∧
    hasDash (stripQuotes (SourceObj.mk "a-2" [7] none).rawEtag) = true ∧
    ((replicate md5len "k" [] wComp).result ≠ FinalResult.err Exc.checksumMismatch ∧
     (replicate md5len "k" [] wComp).result ≠
       FinalResult.retriesExhausted Exc.checksumMismatch) :=
  ⟨rfl, by decide,
    c4_composite_never_integrity_mismatch md5len "k" [] wComp ⟨"a-2", [7], none⟩ rfl (by decide)⟩

theorem body_ok_success_elim (md5hex : List Nat → String) (s3Key : String) (w : World)
    (f : Faults) (k b : String)
    (h : (replicateBody md5hex s3Key w f).result = Except.ok (RetMsg.successMsg k b)) :
    ∃ src, w.source = some src ∧
      (replicateBody md5hex s3Key w f).world.dest =
        some ⟨spoolBytes src.content, src.contentType.getD "application/octet-stream"⟩ ∧
      DestOp.put s3Key (spoolBytes src.content) ∈ (replicateBody md5hex s3Key w f).trace ∧
      k = s3Key ∧ b = w.gcsBucketName := by
  rcases hf : f.headFault with _ | code
  · rcases hsrc : w.source with _ | src
    · rw [body_source_none md5hex s3Key w f hf hsrc] at h
      simp at h
    · cases hst : f.statFault with
      | true =>
        rw [body_stat_fault md5hex s3Key w f src hf hsrc hst] at h
        simp at h
      | false =>
        cases hsk : skipCheck md5hex w (stripQuotes src.rawEtag) with
        | true =>
          rw [body_skip md5hex s3Key w f src hf hst hsrc hsk] at h
          simp at h
        | false =>
          rw [body_transfer md5hex s3Key w f src hf hst hsrc hsk] at h ⊢
          rcases hg : f.getFault with _ | code
          · rcases hu : f.uploadFault with _ | e
            · by_cases hcomp : hasDash (stripQuotes src.rawEtag) = false
              · by_cases hmm : md5hex (hasherBytes src.content) = stripQuotes src.rawEtag
                · rw [transfer_success md5hex s3Key w f src _ hg hu (Or.inl hmm)] at h ⊢
                  simp at h
                  exact ⟨src, rfl, rfl, by simp, h.1.symm, h.2.symm⟩
                · cases hd : f.deleteFault with
                  | false =>
                    rw [transfer_mismatch md5hex s3Key w f src _ hg hu hd hmm hcomp] at h
                    simp at h
                  | true =>
                    rw [transfer_mismatch_dfault md5hex s3Key w f src _ hg hu hd hmm hcomp] at h
                    simp at h
              · have hcomp2 : hasDash (stripQuotes src.rawEtag) = true := by
                  cases hx : hasDash (stripQuotes src.rawEtag)
                  · exact absurd hx hcomp
                  · rfl
                rw [transfer_success md5hex s3Key w f src _ hg hu (Or.inr hcomp2)] at h ⊢
                simp at h
                exact ⟨src, rfl, rfl, by simp, h.1.symm, h.2.symm⟩
            · rw [transfer_upload_fault md5hex s3Key w f src _ e hg hu] at h
              simp at h
          · rw [transfer_get_fault md5hex s3Key w f src _ code hg] at h
            simp at h
  · rw [body_headFault md5hex s3Key w f code hf] at h
    revert h
    split <;> simp

theorem run_ok_success_elim (md5hex : List Nat → String) (s3Key : String) :
    ∀ (n : Nat) (fs : List Faults) (w : World) (k b : String),
    (runAttempts md5hex s3Key n fs w).result = FinalResult.ok (RetMsg.successMsg k b) →
    ∃ src, w.source = some src ∧
      (runAttempts md5hex s3Key n fs w).world.dest =
        some ⟨spoolBytes src.content, src.contentType.getD "application/octet-stream"⟩ ∧
      DestOp.put s3Key (spoolBytes src.content) ∈ (runAttempts md5hex s3Key n fs w).trace ∧
      k = s3Key ∧ b = w.gcsBucketName := by
  intro n
  induction n with
  | zero =>
    intro fs w k b h
    rcases hres : (replicateBody md5hex s3Key w (fs.headD noFaults)).result with e | m
    · cases hr : retryable e with
      | true =>
        rw [run_step_exhausted md5hex s3Key fs w e hres hr] at h
        simp at h
      | false =>
        rw [run_step_err md5hex s3Key 0 fs w e hres hr] at h
        simp at h
    · rw [run_step_ok md5hex s3Key 0 fs w m hres] at h ⊢
      simp at h
      rw [h] at hres
      exact body_ok_success_elim md5hex s3Key w _ k b hres
  | succ n ih =>
    intro fs w k b h
    rcases hres : (replicateBody md5hex s3Key w (fs.headD noFaults)).result with e | m
    · cases hr : retryable e with
      | true =>
        rw [run_step_retry md5hex s3Key n fs w e hres hr] at h ⊢
        obtain ⟨src, hsrc2, hdest, htr, hk, hb⟩ := ih fs.tail _ k b h
        have hsrc : w.source = some src := by
          rw [← (body_world_frame md5hex s3Key w (fs.headD noFaults)).1]
          exact hsrc2
        have hbn : (replicateBody md5hex s3Key w (fs.headD noFaults)).world.gcsBucketName =
            w.gcsBucketName := (body_world_frame md5hex s3Key w (fs.headD noFaults)).2
        refine ⟨src, hsrc, hdest, ?_, hk, ?_⟩
        · exact List.mem_append_right _ htr
        · rw [hb, hbn]
      | false =>
        rw [run_step_err md5hex s3Key (n + 1) fs w e hres hr] at h
        simp at h
    · rw [run_step_ok md5hex s3Key (n + 1) fs w m hres] at h ⊢
      simp at h
      rw [h] at hres
      exact body_ok_success_elim md5hex s3Key w _ k b hres

/-- C1: whenever the retry-wrapped call returns the success (`Replicated`)
outcome, the destination object's bytes are exactly the source content:
the uploaded spool is the concatenation, in read order, of the chunks read
from the source stream, and the digest accumulator was fed exactly those
same bytes. -/
theorem c1_integrity (md5hex : List Nat → String) (s3Key : String) (fs : List Faults)
    (w : World) (k b : String)
    (h : (replicate md5hex s3Key fs w).result = FinalResult.ok (RetMsg.successMsg k b)) :
    ∃ src, w.source = some src ∧
      (replicate md5hex s3Key fs w).world.dest =
        some ⟨src.content, src.contentType.getD "application/octet-stream"⟩ ∧
      DestOp.put s3Key src.content ∈ (replicate md5hex s3Key fs w).trace ∧
      hasherBytes src.content = src.content ∧ spoolBytes src.content = src.content := by
  unfold replicate at h ⊢
  obtain ⟨src, hsrc, hdest, htr, _, _⟩ :=
    run_ok_success_elim md5hex s3Key (STOP_AFTER - 1) fs w k b h
  refine ⟨src, hsrc, ?_, ?_, hasherBytes_eq src.content, spoolBytes_eq src.content⟩
  · rw [hdest, spoolBytes_eq]
  · rw [← spoolBytes_eq src.content]
    exact htr

theorem c1_integrity_witness :
    (replicate md5len "k" [] wMatch).result = FinalResult.ok (RetMsg.successMsg "k" "b") ∧
    (∃ src, wMatch.source = some src ∧
      (replicate md5len "k" [] wMatch).world.dest =
        some ⟨src.content, src.contentType.getD "application/octet-stream"⟩ ∧
      DestOp.put "k" src.content ∈ (replicate md5len "k" [] wMatch).trace ∧
      hasherBytes src.content = src.content ∧ spoolBytes src.content = src.content) :=
  ⟨by decide, c1_integrity md5len "k" [] wMatch "k" "b" (by decide)⟩

/-- C7 counterexample: the claim says the success outcome carries the byte
count and digest; in the code the returned success value `"Successfully
replicated {key} to GCS {bucket}"` is identical for two sources whose byte
counts (1 vs 2) and digests differ, so the outcome carries neither. -/
theorem c7_counterexample :
    (replicate md5len "k" [] wMatch).result = (replicate md5len "k" [] wTwo).result ∧
    (replicate md5len "k" [] wMatch).result = FinalResult.ok (RetMsg.successMsg "k" "b") ∧
    wMatch.source = some ⟨"a", [7], none⟩ ∧ wTwo.source = some ⟨"aa", [7, 7], none⟩ ∧
    md5len [7] ≠ md5len [7, 7] := by
  refine ⟨by decide, by decide, rfl, rfl, by decide⟩

/-- C7 amended: on success the function returns either the idempotent-skip
message or the fixed success message naming only the source key and the
destination bucket; the byte count and computed digest are not part of the
returned outcome. -/
theorem c7_success_message_shape (md5hex : List Nat → String) (s3Key : String)
    (fs : List Faults) (w : World) (m : RetMsg)
    (h : (replicate md5hex s3Key fs w).result = FinalResult.ok m) :
    m = RetMsg.skipMsg ∨
      (m = RetMsg.successMsg s3Key w.gcsBucketName ∧
       m.text = "Successfully replicated " ++ s3Key ++ " to GCS " ++ w.gcsBucketName) := by
  cases m with
  | skipMsg => exact Or.inl rfl
  | successMsg k b =>
    unfold replicate at h
    obtain ⟨src, _, _, _, hk, hb⟩ :=
      run_ok_success_elim md5hex s3Key (STOP_AFTER - 1) fs w k b h
    subst hk
    subst hb
    exact Or.inr ⟨rfl, rfl⟩

theorem c7_success_message_shape_witness :
    (replicate md5len "k" [] wMatch).result =
      FinalResult.ok (RetMsg.successMsg "k" "b") ∧
    (RetMsg.successMsg "k" "b" = RetMsg.skipMsg ∨
      (RetMsg.successMsg "k" "b" = RetMsg.successMsg "k" wMatch.gcsBucketName ∧
       (RetMsg.successMsg "k" "b").text =
         "Successfully replicated " ++ "k" ++ " to GCS " ++ wMatch.gcsBucketName)) :=
  ⟨by decide,
    c7_success_message_shape md5len "k" [] wMatch (RetMsg.successMsg "k" "b") (by decide)⟩

/-- C2: if a fault-free call returns successfully (skip or transfer), a
second fault-free call on the resulting state returns the idempotent-skip
message and performs no destination operations: after a transfer the
destination md5 equals the digest the verification just accepted (or the
ETag is composite), so the check of line 38 fires. -/
theorem c2_idempotent_second_call_skips (md5hex : List Nat → String) (s3Key : String)
    (w : World) (m : RetMsg)
    (h : (replicate md5hex s3Key [] w).result = FinalResult.ok m) :
    (replicate md5hex s3Key [] ((replicate md5hex s3Key [] w).world)).result =
      FinalResult.ok RetMsg.skipMsg ∧
    (replicate md5hex s3Key [] ((replicate md5hex s3Key [] w).world)).trace = [] := by
  rcases hsrc : w.source with _ | src
  · rw [replicate_nil_err md5hex s3Key w Exc.sourceNotFound
      (by rw [body_source_none md5hex s3Key w noFaults rfl hsrc]) rfl] at h
    simp at h
  · cases hsk : skipCheck md5hex w (stripQuotes src.rawEtag) with
    | true =>
      have hb : replicateBody md5hex s3Key w noFaults = ⟨Except.ok RetMsg.skipMsg, w, []⟩ :=
        body_skip md5hex s3Key w noFaults src rfl rfl hsrc hsk
      have hrep : replicate md5hex s3Key [] w = ⟨FinalResult.ok RetMsg.skipMsg, w, 1, []⟩ := by
        rw [replicate_nil_ok md5hex s3Key w RetMsg.skipMsg (by rw [hb]), hb]
      have hworld : (replicate md5hex s3Key [] w).world = w := by rw [hrep]
      rw [hworld, hrep]
      exact ⟨rfl, rfl⟩
    | false =>
      by_cases hver : md5hex (hasherBytes src.content) ≠ stripQuotes src.rawEtag ∧
          hasDash (stripQuotes src.rawEtag) = false
      · have hb : replicateBody md5hex s3Key w noFaults =
            ⟨Except.error Exc.checksumMismatch, { w with dest := none },
              [DestOp.put s3Key (spoolBytes src.content), DestOp.delete s3Key]⟩ := by
          rw [body_transfer md5hex s3Key w noFaults src rfl rfl hsrc hsk]
          exact transfer_mismatch md5hex s3Key w noFaults src _ rfl rfl rfl hver.1 hver.2
        rw [replicate_nil_err md5hex s3Key w Exc.checksumMismatch (by rw [hb]) rfl] at h
        simp at h
      · have hok : md5hex (hasherBytes src.content) = stripQuotes src.rawEtag ∨
            hasDash (stripQuotes src.rawEtag) = true := by
          rcases not_and_or.mp hver with h1 | h2
          · exact Or.inl (not_not.mp h1)
          · cases hx : hasDash (stripQuotes src.rawEtag) with
            | false => exact absurd hx h2
            | true => exact Or.inr rfl
        have hb : replicateBody md5hex s3Key w noFaults =
            ⟨Except.ok (RetMsg.successMsg s3Key w.gcsBucketName),
              { w with dest := some ⟨spoolBytes src.content,
                  src.contentType.getD "application/octet-stream"⟩ },
              [DestOp.put s3Key (spoolBytes src.content)]⟩ := by
          rw [body_transfer md5hex s3Key w noFaults src rfl rfl hsrc hsk]
          exact transfer_success md5hex s3Key w noFaults src _ rfl rfl hok
        have hrep : replicate md5hex s3Key [] w =
            ⟨FinalResult.ok (RetMsg.successMsg s3Key w.gcsBucketName),
              { w with dest := some ⟨spoolBytes src.content,
                  src.contentType.getD "application/octet-stream"⟩ },
              1, [DestOp.put s3Key (spoolBytes src.content)]⟩ := by
          rw [replicate_nil_ok md5hex s3Key w (RetMsg.successMsg s3Key w.gcsBucketName)
            (by rw [hb]), hb]
        have hworld : (replicate md5hex s3Key [] w).world =
            { w with dest := some ⟨spoolBytes src.content,
                src.contentType.getD "application/octet-stream"⟩ } := by
          rw [hrep]
        have hsk2 : skipCheck md5hex
            { w with dest := some ⟨spoolBytes src.content,
                src.contentType.getD "application/octet-stream"⟩ }
            (stripQuotes src.rawEtag) = true := by
          show (decide (md5hex (spoolBytes src.content) = stripQuotes src.rawEtag) ||
            hasDash (stripQuotes src.rawEtag)) = true
          rw [spoolBytes_eq]
          rw [hasherBytes_eq] at hok
          rcases hok with h1 | h1
          · simp [h1]
          · simp [h1]
        have hb2 : replicateBody md5hex s3Key
            { w with dest := some ⟨spoolBytes src.content,
                src.contentType.getD "application/octet-stream"⟩ } noFaults =
            ⟨Except.ok RetMsg.skipMsg,
              { w with dest := some ⟨spoolBytes src.content,
                  src.contentType.getD "application/octet-stream"⟩ }, []⟩ :=
          body_skip md5hex s3Key _ noFaults src rfl rfl hsrc hsk2
        rw [hworld]
        rw [replicate_nil_ok md5hex s3Key _ RetMsg.skipMsg (by rw [hb2]), hb2]
        exact ⟨rfl, rfl⟩

theorem c2_idempotent_second_call_skips_witness :
    (replicate md5len "k" [] wMatch).result = FinalResult.ok (RetMsg.successMsg "k" "b") ∧
    ((replicate md5len "k" [] ((replicate md5len "k" [] wMatch).world)).result =
       FinalResult.ok RetMsg.skipMsg ∧
     (replicate md5len "k" [] ((replicate md5len "k" [] wMatch).world)).trace = []) :=
  ⟨by decide,
    c2_idempotent_second_call_skips md5len "k" wMatch (RetMsg.successMsg "k" "b") (by decide)⟩

theorem headD_cons (f : Faults) (l : List Faults) : (f :: l).headD noFaults = f := rfl

/-- C5 counterexample: a transient `GoogleAPIError` raised by the
destination client inside `upload_from_file` does not lead to a retry: the
wrapper of line 58 re-raises it as a `ValueError`, which the tenacity
predicate never retries, so the call ends after exactly 1 attempt instead
of re-invoking the operation. -/
theorem c5_counterexample :
    (replicate md5len "k" [fUp] wMatch).attempts = 1 ∧
    (replicate md5len "k" [fUp] wMatch).result =
      FinalResult.err (Exc.uploadError Exc.googleAPIError.str) ∧
    fUp.uploadFault = some Exc.googleAPIError ∧
    retryable Exc.googleAPIError = true := by
  decide

/-- C5 amended: transient `ClientError`s that reach the retry policy
uncaught (for example from the source metadata lookup) are retried with
exactly 3 total attempts and never a 4th, surfacing `RetryError` with the
last exception; but a transient exception raised during the destination
upload is caught and wrapped as a `ValueError`, so the policy never retries
it and the call fails after exactly 1 attempt. -/
theorem c5_retry_semantics (md5hex : List Nat → String) (s3Key : String) :
    (∀ (w : World) (a b c : String) (rest : List Faults),
      a ≠ "404" → b ≠ "404" → c ≠ "404" →
      (replicate md5hex s3Key
          ((⟨some a, false, none, none, false⟩ : Faults) ::
            (⟨some b, false, none, none, false⟩ : Faults) ::
            (⟨some c, false, none, none, false⟩ : Faults) :: rest) w).attempts = 3 ∧
      (replicate md5hex s3Key
          ((⟨some a, false, none, none, false⟩ : Faults) ::
            (⟨some b, false, none, none, false⟩ : Faults) ::
            (⟨some c, false, none, none, false⟩ : Faults) :: rest) w).result =
        FinalResult.retriesExhausted (Exc.clientError c)) ∧
    (∀ (w : World) (src : SourceObj) (e : Exc) (rest : List Faults),
      w.source = some src →
      skipCheck md5hex w (stripQuotes src.rawEtag) = false →
      retryable e = true →
      (replicate md5hex s3Key ((⟨none, false, none, some e, false⟩ : Faults) :: rest) w).attempts
          = 1 ∧
      (replicate md5hex s3Key ((⟨none, false, none, some e, false⟩ : Faults) :: rest) w).result =
        FinalResult.err (Exc.uploadError e.str)) := by
  constructor
  · intro w a b c rest ha hb hc
    have h1 : replicateBody md5hex s3Key w (⟨some a, false, none, none, false⟩ : Faults) =
        ⟨Except.error (Exc.clientError a), w, []⟩ := by
      rw [body_headFault md5hex s3Key w _ a rfl, if_neg ha]
    have h2 : replicateBody md5hex s3Key w (⟨some b, false, none, none, false⟩ : Faults) =
        ⟨Except.error (Exc.clientError b), w, []⟩ := by
      rw [body_headFault md5hex s3Key w _ b rfl, if_neg hb]
    have h3 : replicateBody md5hex s3Key w (⟨some c, false, none, none, false⟩ : Faults) =
        ⟨Except.error (Exc.clientError c), w, []⟩ := by
      rw [body_headFault md5hex s3Key w _ c rfl, if_neg hc]
    have s1 : runAttempts md5hex s3Key 2
        ((⟨some a, false, none, none, false⟩ : Faults) ::
          (⟨some b, false, none, none, false⟩ : Faults) ::
          (⟨some c, false, none, none, false⟩ : Faults) :: rest) w =
        ⟨(runAttempts md5hex s3Key 1
            ((⟨some b, false, none, none, false⟩ : Faults) ::
              (⟨some c, false, none, none, false⟩ : Faults) :: rest) w).result,
         (runAttempts md5hex s3Key 1
            ((⟨some b, false, none, none, false⟩ : Faults) ::
              (⟨some c, false, none, none, false⟩ : Faults) :: rest) w).world,
         (runAttempts md5hex s3Key 1
            ((⟨some b, false, none, none, false⟩ : Faults) ::
              (⟨some c, false, none, none, false⟩ : Faults) :: rest) w).attempts + 1,
         [] ++ (runAttempts md5hex s3Key 1
            ((⟨some b, false, none, none, false⟩ : Faults) ::
              (⟨some c, false, none, none, false⟩ : Faults) :: rest) w).trace⟩ := by
      have t := run_step_retry md5hex s3Key 1
        ((⟨some a, false, none, none, false⟩ : Faults) ::
          (⟨some b, false, none, none, false⟩ : Faults) ::
          (⟨some c, false, none, none, false⟩ : Faults) :: rest) w (Exc.clientError a)
        (by rw [headD_cons, h1]) rfl
      simp only [headD_cons, List.tail_cons, h1] at t
      exact t
    have s2 : runAttempts md5hex s3Key 1
        ((⟨some b, false, none, none, false⟩ : Faults) ::
          (⟨some c, false, none, none, false⟩ : Faults) :: rest) w =
        ⟨(runAttempts md5hex s3Key 0
            ((⟨some c, false, none, none, false⟩ : Faults) :: rest) w).result,
         (runAttempts md5hex s3Key 0
            ((⟨some c, false, none, none, false⟩ : Faults) :: rest) w).world,
         (runAttempts md5hex s3Key 0
            ((⟨some c, false, none, none, false⟩ : Faults) :: rest) w).attempts + 1,
         [] ++ (runAttempts md5hex s3Key 0
            ((⟨some c, false, none, none, false⟩ : Faults) :: rest) w).trace⟩ := by
      have t := run_step_retry md5hex s3Key 0
        ((⟨some b, false, none, none, false⟩ : Faults) ::
          (⟨some c, false, none, none, false⟩ : Faults) :: rest) w (Exc.clientError b)
        (by rw [headD_cons, h2]) rfl
      simp only [headD_cons, List.tail_cons, h2] at t
      exact t
    have s3 : runAttempts md5hex s3Key 0
        ((⟨some c, false, none, none, false⟩ : Faults) :: rest) w =
        ⟨FinalResult.retriesExhausted (Exc.clientError c), w, 1, []⟩ := by
      have t := run_step_exhausted md5hex s3Key
        ((⟨some c, false, none, none, false⟩ : Faults) :: rest) w (Exc.clientError c)
        (by rw [headD_cons, h3]) rfl
      simp only [headD_cons, h3] at t
      exact t
    have hall : replicate md5hex s3Key
        ((⟨some a, false, none, none, false⟩ : Faults) ::
          (⟨some b, false, none, none, false⟩ : Faults) ::
          (⟨some c, false, none, none, false⟩ : Faults) :: rest) w =
        ⟨FinalResult.retriesExhausted (Exc.clientError c), w, 3, []⟩ := by
      unfold replicate
      rw [show STOP_AFTER - 1 = 2 from rfl, s1, s2, s3]
      rfl
    rw [hall]
    exact ⟨rfl, rfl⟩
  · intro w src e rest hsrc hskip hre
    have hbody : replicateBody md5hex s3Key w (⟨none, false, none, some e, false⟩ : Faults) =
        ⟨Except.error (Exc.uploadError e.str), w,
          [DestOp.put s3Key (spoolBytes src.content)]⟩ := by
      rw [body_transfer md5hex s3Key w _ src rfl rfl hsrc hskip]
      exact transfer_upload_fault md5hex s3Key w _ src _ e rfl rfl
    have hrun := run_step_err md5hex s3Key (STOP_AFTER - 1)
      ((⟨none, false, none, some e, false⟩ : Faults) :: rest) w (Exc.uploadError e.str)
      (by rw [headD_cons, hbody]) rfl
    unfold replicate
    rw [hrun]
    exact ⟨rfl, rfl⟩

theorem c5_retry_semantics_witness :
    ((replicate md5len "k"
        ((⟨some "500", false, none, none, false⟩ : Faults) ::
          (⟨some "500", false, none, none, false⟩ : Faults) ::
          (⟨some "500", false, none, none, false⟩ : Faults) :: []) wMatch).attempts = 3 ∧
     (replicate md5len "k"
        ((⟨some "500", false, none, none, false⟩ : Faults) ::
          (⟨some "500", false, none, none, false⟩ : Faults) ::
          (⟨some "500", false, none, none, false⟩ : Faults) :: []) wMatch).result =
       FinalResult.retriesExhausted (Exc.clientError "500")) ∧
    ((replicate md5len "k"
        ((⟨none, false, none, some Exc.googleAPIError, false⟩ : Faults) :: []) wMatch).attempts
        = 1 ∧
     (replicate md5len "k"
        ((⟨none, false, none, some Exc.googleAPIError, false⟩ : Faults) :: []) wMatch).result =
       FinalResult.err (Exc.uploadError Exc.googleAPIError.str)) :=
  ⟨(c5_retry_semantics md5len "k").1 wMatch "500" "500" "500" []
      (by decide) (by decide) (by decide),
   (c5_retry_semantics md5len "k").2 wMatch ⟨"a", [7], none⟩ Exc.googleAPIError []
      rfl (by decide) (by decide)⟩

end CrossCloudSync
